import Mathlib

/-!
# Shallow embedding of the WebEditor gradient / color / pointer logic

This file embeds, in Lean 4, the algorithmic core of the editor:

* the color model of `src/app/editor/LeftSidebar.tsx`
  (`clamp`, `cmykToRgb`, `rgbToHex`, `hexToRgb`, `rgbToCmyk`, `mix`);
* the gradient compiler `applyGradient` of
  `src/app/editor/components/Stage/CanvasStage.tsx`, including its local
  helpers `hexToRgb`, `toRgba`, `mixColor`;
* the crop-rectangle normalization performed both by `handleMouseUp` and by
  `finalizeCrop` in `CanvasStage.tsx`;
* the text-tool pointer-up decision (`handleMouseUp`, text branch).

JavaScript numbers are modelled by `ℚ` (every arithmetic operation appearing
in the embedded code — `+ - * /`, `Math.max/min/abs/round` — is exact on the
rationals appearing in the claims; floating point rounding is not modelled).
`Math.round` rounds half-up, i.e. `⌊x + 1/2⌋`.  `Math.cos`/`Math.sin` are
modelled by the exact real functions, so the linear-gradient coordinates
live in `ℝ` while everything else is rational and executable.

Strings are modelled by `String`; JavaScript `parseInt(s, 16)` and
`Number.prototype.toString(16)` are modelled faithfully for the inputs that
can reach them (sign handling, longest-hex-prefix parsing, `NaN` as
`Option.none`, bitwise ops through `ToInt32`).
-/

namespace WebEditor

/-- JavaScript `Math.round` (round half toward +∞): `⌊q + 1/2⌋`.
Stated via the executable `Rat.floor`; `jsRound_eq` below identifies it with
the mathematical floor. -/
def jsRound (q : ℚ) : ℤ := (q + 1/2).floor

theorem jsRound_eq (q : ℚ) : jsRound q = ⌊q + 1/2⌋ :=
  ((q + 1/2).floor_def').trans Rat.floor_def.symm

/-! ## Color model (`src/app/editor/LeftSidebar.tsx`) -/

/-- Source: `const clamp = (n, min = 0, max = 1) => Math.min(max, Math.max(min, n));` -/
def clamp (n : ℚ) (lo : ℚ := 0) (hi : ℚ := 1) : ℚ := min hi (max lo n)

/-- An `{r, g, b}` triple as produced by the color helpers. -/
structure RGB where
  r : ℤ
  g : ℤ
  b : ℤ
  deriving DecidableEq, Repr

/-- A `{c, m, y, k}` quadruple (integer percentages). -/
structure CMYK where
  c : ℤ
  m : ℤ
  y : ℤ
  k : ℤ
  deriving DecidableEq, Repr

/-- The `cmykToRgb` of `LeftSidebar.tsx`:
`r = Math.round(255 * (1 - C) * (1 - K))` etc., with `C = c/100`, … -/
def cmykToRgb (c m y k : ℚ) : RGB :=
  let C := c / 100
  let M := m / 100
  let Y := y / 100
  let K := k / 100
  { r := jsRound (255 * (1 - C) * (1 - K))
    g := jsRound (255 * (1 - M) * (1 - K))
    b := jsRound (255 * (1 - Y) * (1 - K)) }

/-- The `rgbToCmyk` of `LeftSidebar.tsx`: `K = 1 - Math.max(R, G, B)`;
`C/M/Y = (1 - X - K) / (1 - K)` guarded by `K === 1`; each output
`Math.round(clamp(·) * 100)`. -/
def rgbToCmyk (r g b : ℚ) : CMYK :=
  let R := r / 255
  let G := g / 255
  let B := b / 255
  let K := 1 - max R (max G B)
  let C := if K = 1 then 0 else (1 - R - K) / (1 - K)
  let M := if K = 1 then 0 else (1 - G - K) / (1 - K)
  let Y := if K = 1 then 0 else (1 - B - K) / (1 - K)
  { c := jsRound (clamp C * 100)
    m := jsRound (clamp M * 100)
    y := jsRound (clamp Y * 100)
    k := jsRound (clamp K * 100) }

/-! ### Hex strings

Character-level machinery shared by the two `hexToRgb` implementations
(`LeftSidebar.tsx` uses a `[a-f\d]{2}` regex; `CanvasStage.tsx` uses
`parseInt(h, 16)` plus bit shifts). -/

/-- Hex digit in the sense of the regex `[a-f\d]` with the `i` flag and of
`parseInt(·, 16)`: `0-9`, `a-f`, `A-F`. -/
def isHexDig (ch : Char) : Bool :=
  ch.isDigit || ('a' ≤ ch && ch ≤ 'f') || ('A' ≤ ch && ch ≤ 'F')

/-- Numeric value of a hex digit (0 for non-digits, which never arises on
the guarded paths). -/
def hexVal (ch : Char) : ℕ :=
  if ch.isDigit then ch.toNat - '0'.toNat
  else if 'a' ≤ ch && ch ≤ 'f' then ch.toNat - 'a'.toNat + 10
  else if 'A' ≤ ch && ch ≤ 'F' then ch.toNat - 'A'.toNat + 10
  else 0

/-- The `hexToRgb` of `LeftSidebar.tsx`:
`/^#?([a-f\d]{2})([a-f\d]{2})([a-f\d]{2})$/i.exec(hex)`, returning `null`
(here `none`) when the regex does not match. -/
def sidebarHexToRgb (hex : String) : Option RGB :=
  let d := if hex.data.head? = some '#' then hex.data.tail else hex.data
  match d with
  | [a1, a2, b1, b2, c1, c2] =>
    if isHexDig a1 && isHexDig a2 && isHexDig b1 && isHexDig b2 &&
        isHexDig c1 && isHexDig c2 then
      some { r := (16 * hexVal a1 + hexVal a2 : ℕ)
             g := (16 * hexVal b1 + hexVal b2 : ℕ)
             b := (16 * hexVal c1 + hexVal c2 : ℕ) }
    else none
  | _ => none

/-- Source: `hex.replace("#", "")` - JavaScript `String.replace` with a string
pattern removes only the first occurrence. -/
def removeFirstHash : List Char → List Char
  | [] => []
  | ch :: rest => if ch = '#' then rest else ch :: removeFirstHash rest

/-- Source: `if (h.length === 3) h = h[0] + h[0] + h[1] + h[1] + h[2] + h[2];` -/
def expand3 : List Char → List Char
  | [x, y, z] => [x, x, y, y, z, z]
  | l => l

/-- JavaScript `parseInt(s, 16)`: skip whitespace, optional sign, optional
`0x`/`0X` prefix, then the longest prefix of hex digits; `NaN` (no digits)
is modelled as `none`. -/
def jsParseIntHex (l : List Char) : Option ℤ :=
  let l1 := l.dropWhile (fun ch => ch.isWhitespace)
  let sign : ℤ := if l1.head? = some '-' then -1 else 1
  let l2 := if l1.head? = some '-' || l1.head? = some '+' then l1.tail else l1
  let l3 := match l2 with
    | '0' :: 'x' :: rest => rest
    | '0' :: 'X' :: rest => rest
    | rest => rest
  let digits := l3.takeWhile isHexDig
  if digits.isEmpty then none
  else some (sign * (digits.foldl (fun acc ch => 16 * acc + (hexVal ch : ℤ)) 0))

/-- JavaScript `ToInt32`, applied by `>>` and `&` to their operands. -/
def toInt32 (n : ℤ) : ℤ := (n + 2 ^ 31) % 2 ^ 32 - 2 ^ 31

/-- The `hexToRgb` local to `applyGradient` in `CanvasStage.tsx`:
strip one `#`, expand a 3-digit form by digit duplication, `parseInt(h, 16)`,
then `(bigint >> 16) & 255`, `(bigint >> 8) & 255`, `bigint & 255`.
`x >> k` is `ToInt32` then arithmetic shift (floor division by `2^k`);
`x & 255` is the low byte, i.e. `emod 256`.  On `NaN` (`none`) all three
bitwise results are `0`, so the function silently yields black. -/
def canvasHexToRgb (hex : String) : RGB :=
  let h := expand3 (removeFirstHash hex.data)
  let bigint := toInt32 ((jsParseIntHex h).getD 0)
  { r := (bigint.fdiv (2 ^ 16)).emod 256
    g := (bigint.fdiv (2 ^ 8)).emod 256
    b := bigint.emod 256 }

/-- An `rgba(r, g, b, a)` color string, represented by its components
(the formatting of the string is injective on the values produced here). -/
structure RGBA where
  r : ℤ
  g : ℤ
  b : ℤ
  a : ℚ
  deriving DecidableEq, Repr

/-- The `toRgba` local to `applyGradient`:
``const { r, g, b } = hexToRgb(hex); return `rgba(${r}, ${g}, ${b}, ${alpha})`;`` -/
def toRgba (hex : String) (alpha : ℚ) : RGBA :=
  let p := canvasHexToRgb hex
  { r := p.r, g := p.g, b := p.b, a := alpha }

/-- Models `v.toString(16)` for an integer `v` (lowercase hex digits, `-` sign). -/
def jsToString16 (v : ℤ) : List Char :=
  if v < 0 then '-' :: Nat.toDigits 16 v.natAbs else Nat.toDigits 16 v.toNat

/-- Models `.padStart(2, "0")`. -/
def padStart2 (l : List Char) : List Char :=
  if l.length = 0 then ['0', '0'] else if l.length = 1 then '0' :: l else l

/-- The `mixColor` local to `applyGradient`: per-channel
`Math.round(a + (b - a) * t)`, re-encoded as a `#rrggbb` hex string via
`toString(16).padStart(2, "0")`. -/
def mixColor (aHex bHex : String) (t : ℚ) : String :=
  let a := canvasHexToRgb aHex
  let b := canvasHexToRgb bHex
  let r := jsRound (a.r + (b.r - a.r) * t)
  let g := jsRound (a.g + (b.g - a.g) * t)
  let blue := jsRound (a.b + (b.b - a.b) * t)
  ⟨'#' :: (padStart2 (jsToString16 r) ++ padStart2 (jsToString16 g) ++
      padStart2 (jsToString16 blue))⟩

/-! ## Crop rectangle (`CanvasStage.tsx`: `handleMouseDown`/`handleMouseMove`
and the normalization duplicated in `handleMouseUp` and `finalizeCrop`) -/

/-- The overlay rectangle's `{left, top, width, height}`. -/
structure CropRect where
  left : ℚ
  top : ℚ
  width : ℚ
  height : ℚ
  deriving DecidableEq, Repr

/-- State of the crop overlay after pointer-down at `(sx, sy)` followed by a
pointer-move to `(ex, ey)`: mouse-down creates the rect at `left = sx`,
`top = sy` with zero size, and mouse-move sets
`width = pointer.x - startX`, `height = pointer.y - startY`. -/
def cropRectFromDrag (sx sy ex ey : ℚ) : CropRect :=
  { left := sx, top := sy, width := ex - sx, height := ey - sy }

/-- The normalization in `handleMouseUp` (crop branch): if `width < 0`,
`left += width; width = Math.abs(width)`, and likewise for `height`. -/
def mouseUpNormalize (rect : CropRect) : CropRect :=
  let left := if rect.width < 0 then rect.left + rect.width else rect.left
  let width := if rect.width < 0 then |rect.width| else rect.width
  let top := if rect.height < 0 then rect.top + rect.height else rect.top
  let height := if rect.height < 0 then |rect.height| else rect.height
  { left := left, top := top, width := width, height := height }

/-- The identical normalization repeated in `finalizeCrop`. -/
def finalizeCropNormalize (rect : CropRect) : CropRect :=
  let left := if rect.width < 0 then rect.left + rect.width else rect.left
  let width := if rect.width < 0 then |rect.width| else rect.width
  let top := if rect.height < 0 then rect.top + rect.height else rect.top
  let height := if rect.height < 0 then |rect.height| else rect.height
  { left := left, top := top, width := width, height := height }

/-! ## Text tool pointer-up (`CanvasStage.tsx`, `handleMouseUp` text branch) -/

/-- The object created on text-tool pointer-up: an area `Textbox` (with
`left`/`top`/`width`/`height`) or a point `IText` (with `left`/`top`). -/
inductive TextCreated where
  | area (left top width height : ℚ)
  | point (left top : ℚ)
  deriving DecidableEq, Repr

/-- The text branch of `handleMouseUp`:
`dx = |pointer.x - start.startX|`, `dy = |pointer.y - start.startY|`,
`dragged = dx > 4 || dy > 4`, `forceArea = textMode === "area"`,
`forcePoint = textMode === "point"`;
`(dragged && !forcePoint) || forceArea` selects a `Textbox` at
`(Math.min(startX, px), Math.min(startY, py))` with size
`(Math.max(40, dx), Math.max(24, dy))`, otherwise an `IText` at
`(startX, startY)`. -/
def textMouseUp (textMode : String) (startX startY px py : ℚ) : TextCreated :=
  let dx := |px - startX|
  let dy := |py - startY|
  let dragged := dx > 4 ∨ dy > 4
  let forceArea := textMode = "area"
  let forcePoint := textMode = "point"
  if (dragged ∧ ¬forcePoint) ∨ forceArea then
    .area (min startX px) (min startY py) (max 40 dx) (max 24 dy)
  else
    .point startX startY

/-! ## Gradient compiler (`CanvasStage.tsx`, `applyGradient`)

`applyGradient` receives an options object and, for each selected target,
builds a `fabric.Gradient` from the target's bounding-box `width`/`height`.
We embed the per-target gradient computation; applying the result to
`fill`/`stroke` and re-rendering are engine side effects outside the model. -/

/-- The options object taken by `applyGradient` (the `applyTo` channel only
selects which of `fill`/`stroke` receives the result and does not influence
the computed gradient; it is not modelled). -/
structure GradientOptions where
  type : String
  c1 : String
  c2 : String
  mid : Option ℚ := none
  angle : Option ℚ := none
  opacity : Option ℚ := none
  origin : Option (ℚ × ℚ) := none
  aspectRatio : Option ℚ := none
  reverse : Bool := false

/-- Models `x || d` for a JavaScript number `x` (`0` is falsy). -/
def jsOr (x d : ℚ) : ℚ := if x = 0 then d else x

/-- Models `options.f || d` for an optional JavaScript number field
(`undefined` and `0` are falsy). -/
def jsOrOpt (a : Option ℚ) (d : ℚ) : ℚ :=
  match a with
  | none => d
  | some x => if x = 0 then d else x

/-- Models `String.prototype.toLowerCase`, for the ASCII strings that occur here. -/
def toLowerCase (s : String) : String := ⟨s.data.map Char.toLower⟩

namespace GradientOptions

/-- Source: `const type = (options.type || "linear").toLowerCase();` -/
def tyLower (o : GradientOptions) : String :=
  toLowerCase (if o.type = "" then "linear" else o.type)

/-- Source: `const midPct = options.mid != null ? options.mid : 50;` -/
def midPct (o : GradientOptions) : ℚ := o.mid.getD 50

/-- Source: `const mid = midPct / 100;` -/
def midq (o : GradientOptions) : ℚ := o.midPct / 100

/-- Source: `const angleVal = options.angle != null ? options.angle : 0;` -/
def angleVal (o : GradientOptions) : ℚ := o.angle.getD 0

/-- Source: `const alpha = (options.opacity != null ? options.opacity : 100) / 100;` -/
def alphaq (o : GradientOptions) : ℚ := o.opacity.getD 100 / 100

/-- Source: `const cStart = options.reverse ? options.c2 : options.c1;` -/
def cStart (o : GradientOptions) : String := if o.reverse then o.c2 else o.c1

/-- Source: `const cEnd = options.reverse ? options.c1 : options.c2;` -/
def cEnd (o : GradientOptions) : String := if o.reverse then o.c1 else o.c2

/-- Source: `const aspect = Math.max(0.01, options.aspectRatio || 1);` -/
def effAspect (o : GradientOptions) : ℚ := max (1/100) (jsOrOpt o.aspectRatio 1)

/-- Source: `const origin = options.origin || { x: 0, y: 0 };` (an object is always
truthy, so only a missing `origin` falls back). -/
def originD (o : GradientOptions) : ℚ × ℚ := o.origin.getD (0, 0)

end GradientOptions

/-- Models `(angleVal * Math.PI) / 180`. -/
noncomputable def degToRad (d : ℚ) : ℝ := d * Real.pi / 180

/-- Coordinates of a compiled `fabric.Gradient`: radial gradients carry
`x1 y1 r1 x2 y2 r2` (all rational here), linear gradients carry
`x1 y1 x2 y2` with the endpoint computed through `Math.cos`/`Math.sin`. -/
inductive GCoords where
  | linear (x1 y1 x2 y2 : ℝ)
  | radial (x1 y1 r1 x2 y2 r2 : ℚ)

/-- One element of `colorStops`. -/
structure ColorStop where
  offset : ℚ
  color : RGBA
  deriving DecidableEq, Repr

/-- A compiled `fabric.Gradient` value. -/
structure Gradient where
  type : String
  coords : GCoords
  colorStops : List ColorStop

/-- The per-target body of `applyGradient` in `CanvasStage.tsx`: from the
options and the target's bounding-box `width`/`height`, build the
`fabric.Gradient`.  In the reflected branch the source recomputes
`mixColor(cStart, cEnd, mid)` under the name `mixStartHex`; it is the same
value as `mixedMidHex`, and both are embedded as
`mixColor o.cStart o.cEnd o.midq`. -/
noncomputable def applyGradient (o : GradientOptions) (width height : ℚ) :
    Gradient :=
  let origin := o.originD
  let aspect := o.effAspect
  let ty := o.tyLower
  let mid := o.midq
  let alpha := o.alphaq
  let c1Rgba := toRgba o.cStart alpha
  let c2Rgba := toRgba o.cEnd alpha
  let mixedMidRgba := toRgba (mixColor o.cStart o.cEnd mid) alpha
  if ty = "radial" ∨ ty = "conic" then
    { type := "radial"
      coords := .radial (width * jsOr origin.1 (1/2)) (height * jsOr origin.2 (1/2)) 0
        (width * jsOr origin.1 (1/2)) (height * jsOr origin.2 (1/2))
        (max width height / 2)
      colorStops := [⟨0, c1Rgba⟩, ⟨mid, mixedMidRgba⟩, ⟨1, c2Rgba⟩] }
  else if ty = "diamond" then
    { type := "radial"
      coords := .radial (width * jsOr origin.1 (1/2)) (height * jsOr origin.2 (1/2)) 0
        (width * jsOr origin.1 (1/2)) (height * jsOr origin.2 (1/2))
        (min width height / 2 * aspect)
      colorStops := [⟨0, c1Rgba⟩, ⟨mid, mixedMidRgba⟩, ⟨1, c2Rgba⟩] }
  else
    let x1 := width * jsOr origin.1 0
    let y1 := height * jsOr origin.2 0
    let x2 : ℝ := x1 + Real.cos (degToRad o.angleVal) * width * aspect
    let y2 : ℝ := y1 + Real.sin (degToRad o.angleVal) * height
    let colorStops :=
      if ty = "reflected" then
        [⟨0, c1Rgba⟩, ⟨mid, mixedMidRgba⟩, ⟨1 - mid, mixedMidRgba⟩, ⟨1, c1Rgba⟩]
      else if ty = "multi-point" ∨ ty = "multi" then
        [⟨0, c1Rgba⟩, ⟨35/100, toRgba (mixColor o.cStart o.cEnd (35/100)) alpha⟩,
          ⟨7/10, toRgba (mixColor o.cStart o.cEnd (7/10)) alpha⟩, ⟨1, c2Rgba⟩]
      else
        [⟨0, c1Rgba⟩, ⟨mid, mixedMidRgba⟩, ⟨1, c2Rgba⟩]
    { type := "linear", coords := .linear x1 y1 x2 y2, colorStops := colorStops }

/-- Radial coordinates of a compiled gradient, when it is radial. -/
def Gradient.radialCoords (g : Gradient) : Option (ℚ × ℚ × ℚ × ℚ × ℚ × ℚ) :=
  match g.coords with
  | .radial x1 y1 r1 x2 y2 r2 => some (x1, y1, r1, x2, y2, r2)
  | _ => none

/-- The list of stop offsets of a compiled gradient. -/
def Gradient.offsets (g : Gradient) : List ℚ := g.colorStops.map ColorStop.offset

/-! ## Theorems -/

/-- Normalization of a dragged crop rectangle always yields the top-left
corner of the spanned box and absolute extents. -/
theorem mouseUpNormalize_drag (sx sy ex ey : ℚ) :
    mouseUpNormalize (cropRectFromDrag sx sy ex ey) =
      { left := min sx ex, top := min sy ey, width := |ex - sx|, height := |ey - sy| } := by
  simp only [mouseUpNormalize, cropRectFromDrag, CropRect.mk.injEq]
  refine ⟨?_, ?_, ?_, ?_⟩ <;> split_ifs with h
  · rw [min_eq_right (by linarith)]; ring
  · rw [min_eq_left (by linarith)]
  · rw [min_eq_right (by linarith)]; ring
  · rw [min_eq_left (by linarith)]
  · rfl
  · rw [abs_of_nonneg (by linarith)]
  · rfl
  · rw [abs_of_nonneg (by linarith)]

/-- C4: compiling a gradient with `reverse = true` is exactly compiling with
`c1`/`c2` interchanged and `reverse = false`; in particular the midpoint mix
color is recomputed from the swapped pair, not copied. -/
theorem reverse_swaps_colors (o : GradientOptions) (w h : ℚ) :
    applyGradient { o with reverse := true } w h =
      applyGradient { o with c1 := o.c2, c2 := o.c1, reverse := false } w h := rfl

/-- C6: crop finalization normalizes the dragged rectangle sign-invariantly:
a drag from start to end and the opposite drag produce the same normalized
rectangle, both on the pointer-up path and on the `finalizeCrop` path, and
the drags `(50,50)→(150,120)` and `(150,120)→(50,50)` both yield
`{left: 50, top: 50, width: 100, height: 70}`. -/
theorem crop_normalization_sign_invariant (sx sy ex ey : ℚ) :
    (mouseUpNormalize (cropRectFromDrag sx sy ex ey) =
        mouseUpNormalize (cropRectFromDrag ex ey sx sy) ∧
      finalizeCropNormalize (cropRectFromDrag sx sy ex ey) =
        mouseUpNormalize (cropRectFromDrag sx sy ex ey)) ∧
    mouseUpNormalize (cropRectFromDrag 50 50 150 120) =
      { left := 50, top := 50, width := 100, height := 70 } ∧
    mouseUpNormalize (cropRectFromDrag 150 120 50 50) =
      { left := 50, top := 50, width := 100, height := 70 } ∧
    finalizeCropNormalize (cropRectFromDrag 50 50 150 120) =
      { left := 50, top := 50, width := 100, height := 70 } ∧
    finalizeCropNormalize (cropRectFromDrag 150 120 50 50) =
      { left := 50, top := 50, width := 100, height := 70 } := by
  have hfin : ∀ r, finalizeCropNormalize r = mouseUpNormalize r := fun _ => rfl
  refine ⟨⟨?_, hfin _⟩, ?_, ?_, ?_, ?_⟩
  · rw [mouseUpNormalize_drag, mouseUpNormalize_drag, min_comm, min_comm sy,
      abs_sub_comm, abs_sub_comm sy]
  all_goals simp only [hfin, mouseUpNormalize_drag, CropRect.mk.injEq]
  all_goals norm_num [min_def, abs_of_nonneg, abs_of_nonpos]

/-- C7: on text-tool pointer-up, absent a forced mode, the outcome is decided
by `dragged = (|dx| > 4 ∨ |dy| > 4)`; displacement `(2,1)` yields point text
at the start, displacement `(10,0)` yields an area box of size `40×24` at the
start; forced `"area"` always yields an area box at the top-left of the
spanned box with size `(max 40 dx, max 24 dy)`, and forced `"point"` always
yields point text at the start. -/
theorem text_pointer_up_decision (mode : String) (sx sy px py : ℚ) :
    (mode ≠ "area" → mode ≠ "point" →
      textMouseUp mode sx sy px py =
        if |px - sx| > 4 ∨ |py - sy| > 4 then
          .area (min sx px) (min sy py) (max 40 |px - sx|) (max 24 |py - sy|)
        else .point sx sy) ∧
    (mode ≠ "area" → mode ≠ "point" →
      textMouseUp mode sx sy (sx + 2) (sy + 1) = .point sx sy) ∧
    (mode ≠ "area" → mode ≠ "point" →
      textMouseUp mode sx sy (sx + 10) sy = .area sx sy 40 24) ∧
    textMouseUp "area" sx sy px py =
      .area (min sx px) (min sy py) (max 40 |px - sx|) (max 24 |py - sy|) ∧
    textMouseUp "point" sx sy px py = .point sx sy := by
  refine ⟨fun h1 h2 => ?_, fun h1 h2 => ?_, fun h1 h2 => ?_, ?_, ?_⟩
  · simp only [textMouseUp, h1, h2]
    split_ifs with ha hb hc <;> simp_all
  · simp only [textMouseUp, h1, h2]
    rw [if_neg]
    norm_num
  · simp only [textMouseUp, h1, h2]
    rw [if_pos, min_eq_left (by linarith), min_eq_left (le_refl sy)]
    · norm_num
    · norm_num
  · simp [textMouseUp]
  · simp [textMouseUp]

/-- Witness for C7 at `mode = "x"`, start `(0,0)`. -/
theorem text_pointer_up_decision_witness :
    (("x" : String) ≠ "area" ∧ ("x" : String) ≠ "point") ∧
    textMouseUp "x" 0 0 (0 + 2) (0 + 1) = .point 0 0 ∧
    textMouseUp "x" 0 0 (0 + 10) 0 = .area 0 0 40 24 :=
  ⟨⟨by decide, by decide⟩,
    (text_pointer_up_decision "x" 0 0 0 0).2.1 (by decide) (by decide),
    (text_pointer_up_decision "x" 0 0 0 0).2.2.1 (by decide) (by decide)⟩

/-- Concrete gradient options used by witnesses. -/
def starOpts : GradientOptions := { type := "starburst", c1 := "#ff0000", c2 := "#0000ff" }

/-- Concrete gradient options used by witnesses. -/
def diamondOpts : GradientOptions := { type := "diamond", c1 := "#ff0000", c2 := "#0000ff" }

/-- C5: any `type` string that does not match a known gradient family after
lower-casing compiles exactly like `type = "linear"` with the same other
parameters. -/
theorem unknown_type_falls_back_to_linear (o : GradientOptions) (w h : ℚ)
    (h1 : o.tyLower ≠ "radial") (h2 : o.tyLower ≠ "conic") (h3 : o.tyLower ≠ "diamond")
    (h4 : o.tyLower ≠ "reflected") (h5 : o.tyLower ≠ "multi-point") (h6 : o.tyLower ≠ "multi") :
    applyGradient o w h = applyGradient { o with type := "linear" } w h := by
  have hl : GradientOptions.tyLower { o with type := "linear" } = "linear" := by
    simp [GradientOptions.tyLower, toLowerCase]
  simp [applyGradient, hl, h1, h2, h3, h4, h5, h6, GradientOptions.originD,
    GradientOptions.angleVal, GradientOptions.effAspect, GradientOptions.midq,
    GradientOptions.midPct, GradientOptions.alphaq, GradientOptions.cStart,
    GradientOptions.cEnd]

/-- Witness for C5 at `type = "starburst"`. -/
theorem unknown_type_falls_back_to_linear_witness :
    (starOpts.tyLower ≠ "radial" ∧ starOpts.tyLower ≠ "conic" ∧
      starOpts.tyLower ≠ "diamond" ∧ starOpts.tyLower ≠ "reflected" ∧
      starOpts.tyLower ≠ "multi-point" ∧ starOpts.tyLower ≠ "multi") ∧
    applyGradient starOpts 100 50 = applyGradient { starOpts with type := "linear" } 100 50 :=
  ⟨⟨by decide, by decide, by decide, by decide, by decide, by decide⟩,
    unknown_type_falls_back_to_linear starOpts 100 50 (by decide) (by decide)
      (by decide) (by decide) (by decide) (by decide)⟩

/-- C10: the aspect ratio is sanitized before use: the effective factor is
`max(0.01, aspectRatio)` for a supplied nonzero value and `1` when absent or
`0`; it is strictly positive for every input, and it is the factor entering
the diamond outer radius and the linear end point. -/
theorem aspect_ratio_sanitized (o : GradientOptions) (w h a : ℚ) :
    (a ≠ 0 → GradientOptions.effAspect { o with aspectRatio := some a } = max (1/100) a) ∧
    GradientOptions.effAspect { o with aspectRatio := none } = 1 ∧
    GradientOptions.effAspect { o with aspectRatio := some 0 } = 1 ∧
    0 < o.effAspect ∧
    (o.tyLower = "diamond" →
      (applyGradient o w h).coords =
        .radial (w * jsOr o.originD.1 (1/2)) (h * jsOr o.originD.2 (1/2)) 0
          (w * jsOr o.originD.1 (1/2)) (h * jsOr o.originD.2 (1/2))
          (min w h / 2 * o.effAspect)) ∧
    (o.tyLower ≠ "radial" → o.tyLower ≠ "conic" → o.tyLower ≠ "diamond" →
      (applyGradient o w h).coords =
        .linear (w * jsOr o.originD.1 0) (h * jsOr o.originD.2 0)
          ((w * jsOr o.originD.1 0 : ℚ) + Real.cos (degToRad o.angleVal) * w * o.effAspect)
          ((h * jsOr o.originD.2 0 : ℚ) + Real.sin (degToRad o.angleVal) * h)) := by
  refine ⟨fun ha => ?_, ?_, ?_, ?_, fun hd => ?_, fun h1 h2 h3 => ?_⟩
  · simp only [GradientOptions.effAspect, jsOrOpt]
    rw [if_neg ha]
  · simp only [GradientOptions.effAspect, jsOrOpt]
    exact max_eq_right (by norm_num)
  · simp only [GradientOptions.effAspect, jsOrOpt, if_pos rfl]
    exact max_eq_right (by norm_num)
  · rw [GradientOptions.effAspect]
    exact lt_of_lt_of_le (by norm_num) (le_max_left _ _)
  · simp [applyGradient, hd]
  · simp [applyGradient, h1, h2, h3]

/-- Witness for C10 at `aspectRatio = -5`, `type = "diamond"` and
`type = "starburst"`. -/
theorem aspect_ratio_sanitized_witness :
    ((-5 : ℚ) ≠ 0 ∧
      GradientOptions.effAspect { diamondOpts with aspectRatio := some (-5) } =
        max (1/100) (-5)) ∧
    (diamondOpts.tyLower = "diamond" ∧
      (applyGradient diamondOpts 100 50).coords =
        .radial (100 * jsOr diamondOpts.originD.1 (1/2)) (50 * jsOr diamondOpts.originD.2 (1/2)) 0
          (100 * jsOr diamondOpts.originD.1 (1/2)) (50 * jsOr diamondOpts.originD.2 (1/2))
          (min 100 50 / 2 * diamondOpts.effAspect)) ∧
    (starOpts.tyLower ≠ "radial" ∧
      (applyGradient starOpts 100 50).coords =
        .linear (100 * jsOr starOpts.originD.1 0) (50 * jsOr starOpts.originD.2 0)
          ((100 * jsOr starOpts.originD.1 0 : ℚ) +
            Real.cos (degToRad starOpts.angleVal) * 100 * starOpts.effAspect)
          ((50 * jsOr starOpts.originD.2 0 : ℚ) +
            Real.sin (degToRad starOpts.angleVal) * 50)) :=
  ⟨⟨by norm_num, (aspect_ratio_sanitized diamondOpts 100 50 (-5)).1 (by norm_num)⟩,
    ⟨by decide, (aspect_ratio_sanitized diamondOpts 100 50 0).2.2.2.2.1 (by decide)⟩,
    ⟨by decide, (aspect_ratio_sanitized starOpts 100 50 0).2.2.2.2.2 (by decide)
      (by decide) (by decide)⟩⟩

/-- Reflected-family options with `mid = 60`, exhibiting out-of-order stops. -/
def reflectedOpts : GradientOptions :=
  { type := "reflected", c1 := "#ff0000", c2 := "#0000ff", mid := some 60 }

/-- Linear-family options with `mid = 150`, exhibiting an offset above 1. -/
def linearMid150Opts : GradientOptions :=
  { type := "linear", c1 := "#ff0000", c2 := "#0000ff", mid := some 150 }

/-- C1 (amended): the stop offsets are non-decreasing and lie in `[0, 1]`
provided the mid percentage lies in `[0, 100]`, and additionally at most 50
for the reflected family. -/
theorem stop_offsets_sorted (o : GradientOptions) (w h : ℚ)
    (h0 : 0 ≤ o.midPct) (h1 : o.midPct ≤ 100)
    (h2 : o.tyLower = "reflected" → o.midPct ≤ 50) :
    List.Chain' (· ≤ ·) (applyGradient o w h).offsets ∧
      ∀ x ∈ (applyGradient o w h).offsets, 0 ≤ x ∧ x ≤ 1 := by
  have hm0 : 0 ≤ o.midq := div_nonneg h0 (by norm_num)
  have hm1 : o.midq ≤ 1 := by
    rw [GradientOptions.midq, div_le_one (by norm_num : (0:ℚ) < 100)]; exact h1
  simp only [applyGradient, Gradient.offsets]
  split_ifs with hr hd hrefl hmulti
  · simp_all [List.chain'_cons]
  · simp_all [List.chain'_cons]
  · have hm2 : o.midq ≤ 1/2 := by
      rw [GradientOptions.midq, div_le_iff₀ (by norm_num : (0:ℚ) < 100)]
      have := h2 hrefl; linarith
    simp_all [List.chain'_cons]
    all_goals try linarith
  · simp_all [List.chain'_cons]
    all_goals norm_num
  · simp_all [List.chain'_cons]

/-- Witness for C1 at the multi-point family with `mid = 40`. -/
theorem stop_offsets_sorted_witness :
    (0 ≤ GradientOptions.midPct { type := "Multi-Point", c1 := "#ff0000", c2 := "#0000ff", mid := some 40 } ∧
      GradientOptions.midPct { type := "Multi-Point", c1 := "#ff0000", c2 := "#0000ff", mid := some 40 } ≤ 100) ∧
    (List.Chain' (· ≤ ·)
        (applyGradient { type := "Multi-Point", c1 := "#ff0000", c2 := "#0000ff", mid := some 40 } 100 50).offsets ∧
      ∀ x ∈ (applyGradient { type := "Multi-Point", c1 := "#ff0000", c2 := "#0000ff", mid := some 40 } 100 50).offsets,
        0 ≤ x ∧ x ≤ 1) :=
  ⟨⟨by norm_num [GradientOptions.midPct], by norm_num [GradientOptions.midPct]⟩,
    stop_offsets_sorted _ 100 50 (by norm_num [GradientOptions.midPct])
      (by norm_num [GradientOptions.midPct]) (fun hc => absurd hc (by decide))⟩

/-- Counterexample to C1 as stated: for the reflected family with `mid = 60`
the offsets are `[0, 0.6, 0.4, 1]`, which is not non-decreasing, and for the
linear family with `mid = 150` the offset `1.5` exceeds `1`. -/
theorem stop_offsets_sorted_cex :
    ((applyGradient reflectedOpts 100 50).offsets = [0, 3/5, 2/5, 1] ∧
      ¬ List.Chain' (· ≤ ·) (applyGradient reflectedOpts 100 50).offsets) ∧
    ((applyGradient linearMid150Opts 100 50).offsets = [0, 3/2, 1] ∧
      ¬ ∀ x ∈ (applyGradient linearMid150Opts 100 50).offsets, 0 ≤ x ∧ x ≤ 1) := by
  have hty : GradientOptions.tyLower reflectedOpts = "reflected" := by decide
  have hmid : GradientOptions.midq reflectedOpts = 3/5 := by
    norm_num [GradientOptions.midq, GradientOptions.midPct, reflectedOpts]
  have hty2 : GradientOptions.tyLower linearMid150Opts = "linear" := by decide
  have hmid2 : GradientOptions.midq linearMid150Opts = 3/2 := by
    norm_num [GradientOptions.midq, GradientOptions.midPct, linearMid150Opts]
  have h : (applyGradient reflectedOpts 100 50).offsets = [0, 3/5, 2/5, 1] := by
    simp [applyGradient, hty, hmid, Gradient.offsets]
    norm_num
  have h2 : (applyGradient linearMid150Opts 100 50).offsets = [0, 3/2, 1] := by
    simp [applyGradient, hty2, hmid2, Gradient.offsets]
  refine ⟨⟨h, ?_⟩, h2, ?_⟩
  · rw [h]
    simp [List.chain'_cons]
    norm_num
  · rw [h2]
    intro hall
    have := (hall (3/2) (by simp)).2
    norm_num at this

/-- Options for the C3 counterexample: an explicitly supplied origin whose
x-component is `0` does not give `center.x = width * 0`. -/
def radialZeroOriginOpts : GradientOptions :=
  { type := "radial", c1 := "#ff0000", c2 := "#0000ff", origin := some (0, 1/4) }

/-- Options for the C3 witness. -/
def conicOpts : GradientOptions :=
  { type := "conic", c1 := "#ff0000", c2 := "#0000ff", origin := some (3/10, 2/5),
    mid := some 30, opacity := some 80 }

/-- C3 (amended): radial/conic gradients are radial with
`center = (width · ox, height · oy)` where a zero component of the
(possibly defaulted) origin falls back to `0.5`, inner radius `0`, outer
radius `max(width, height) / 2`, and stops `0 ↦ cStart`, `mid ↦ mix`,
`1 ↦ cEnd`. -/
theorem radial_conic_shape (o : GradientOptions) (w h : ℚ)
    (hty : o.tyLower = "radial" ∨ o.tyLower = "conic") :
    applyGradient o w h =
      { type := "radial"
        coords := .radial
          (w * (if o.originD.1 = 0 then 1/2 else o.originD.1))
          (h * (if o.originD.2 = 0 then 1/2 else o.originD.2))
          0
          (w * (if o.originD.1 = 0 then 1/2 else o.originD.1))
          (h * (if o.originD.2 = 0 then 1/2 else o.originD.2))
          (max w h / 2)
        colorStops := [⟨0, toRgba o.cStart o.alphaq⟩,
          ⟨o.midq, toRgba (mixColor o.cStart o.cEnd o.midq) o.alphaq⟩,
          ⟨1, toRgba o.cEnd o.alphaq⟩] } := by
  simp only [applyGradient]
  rw [if_pos hty]
  rfl

/-- Witness for C3 at the conic options. -/
theorem radial_conic_shape_witness :
    (conicOpts.tyLower = "conic") ∧
    applyGradient conicOpts 100 50 =
      { type := "radial"
        coords := .radial
          (100 * (if conicOpts.originD.1 = 0 then 1/2 else conicOpts.originD.1))
          (50 * (if conicOpts.originD.2 = 0 then 1/2 else conicOpts.originD.2))
          0
          (100 * (if conicOpts.originD.1 = 0 then 1/2 else conicOpts.originD.1))
          (50 * (if conicOpts.originD.2 = 0 then 1/2 else conicOpts.originD.2))
          (max 100 50 / 2)
        colorStops := [⟨0, toRgba conicOpts.cStart conicOpts.alphaq⟩,
          ⟨conicOpts.midq, toRgba (mixColor conicOpts.cStart conicOpts.cEnd conicOpts.midq) conicOpts.alphaq⟩,
          ⟨1, toRgba conicOpts.cEnd conicOpts.alphaq⟩] } :=
  ⟨by decide, radial_conic_shape conicOpts 100 50 (Or.inr (by decide))⟩

/-- Counterexample to C3 as stated: with the supplied origin `(0, 1/4)` and a
`100×50` box the compiled center is `(50, 12.5)`, not
`(width · origin.x, height · origin.y) = (0, 12.5)`. -/
theorem radial_conic_shape_cex :
    (applyGradient radialZeroOriginOpts 100 50).radialCoords =
      some (50, 25/2, 0, 50, 25/2, 50) ∧
    (50 : ℚ) ≠ 100 * radialZeroOriginOpts.originD.1 := by
  have hty : GradientOptions.tyLower radialZeroOriginOpts = "radial" := by decide
  have ho : radialZeroOriginOpts.originD = (0, 1/4) := rfl
  constructor
  · simp [applyGradient, hty, Gradient.radialCoords, ho, jsOr]
    norm_num
  · rw [ho]
    norm_num

/-- The C2 example options: linear, `mid = 50`, `angle = 0`,
`reverse = false`, `c1 = "#ff0000"`, `c2 = "#0000ff"`, `opacity = 100`. -/
def linearRedBlueOpts : GradientOptions :=
  { type := "linear", c1 := "#ff0000", c2 := "#0000ff", mid := some 50,
    angle := some 0, opacity := some 100, reverse := false }

/-- C2: the linear red→blue example on a `100×50` box compiles to a linear
gradient from `(0,0)` to `(0,0) + (cos 0 · 100 · 1, sin 0 · 50) = (100, 0)`
with stops `0 ↦ rgba(255,0,0,1)`, `0.5 ↦ rgba(128,0,128,1)`,
`1 ↦ rgba(0,0,255,1)`. -/
theorem linear_red_blue_example :
    applyGradient linearRedBlueOpts 100 50 =
      { type := "linear"
        coords := .linear 0 0 100 0
        colorStops := [⟨0, ⟨255, 0, 0, 1⟩⟩, ⟨1/2, ⟨128, 0, 128, 1⟩⟩, ⟨1, ⟨0, 0, 255, 1⟩⟩] } := by
  have hty : GradientOptions.tyLower linearRedBlueOpts = "linear" := by decide
  have hmid : GradientOptions.midq linearRedBlueOpts = 1/2 := by
    norm_num [GradientOptions.midq, GradientOptions.midPct, linearRedBlueOpts]
  have halpha : GradientOptions.alphaq linearRedBlueOpts = 1 := by
    norm_num [GradientOptions.alphaq, linearRedBlueOpts]
  have hasp : GradientOptions.effAspect linearRedBlueOpts = 1 := by
    simp only [GradientOptions.effAspect, jsOrOpt, linearRedBlueOpts]
    exact max_eq_right (by norm_num)
  have hang : GradientOptions.angleVal linearRedBlueOpts = 0 := rfl
  have hcS : GradientOptions.cStart linearRedBlueOpts = "#ff0000" := rfl
  have hcE : GradientOptions.cEnd linearRedBlueOpts = "#0000ff" := rfl
  have ho : GradientOptions.originD linearRedBlueOpts = (0, 0) := rfl
  have hmix : mixColor "#ff0000" "#0000ff" (1/2) = "#800080" := by
    have ha : canvasHexToRgb "#ff0000" = ⟨255, 0, 0⟩ := by decide
    have hb : canvasHexToRgb "#0000ff" = ⟨0, 0, 255⟩ := by decide
    simp only [mixColor, ha, hb]
    norm_num [jsRound_eq]
    decide
  have h1 : toRgba "#ff0000" 1 = ⟨255, 0, 0, 1⟩ := by decide
  have h2 : toRgba "#800080" 1 = ⟨128, 0, 128, 1⟩ := by decide
  have h3 : toRgba "#0000ff" 1 = ⟨0, 0, 255, 1⟩ := by decide
  simp [applyGradient, hty, hmid, halpha, hasp, hang, hcS, hcE, ho, hmix, h1, h2, h3,
    jsOr, degToRad, Gradient.mk.injEq]
  norm_num [hmix, h2]

/-- A hex digit is never `'#'`. -/
theorem ne_hash_of_hexDig {ch : Char} (h : isHexDig ch = true) : ch ≠ '#' := by
  rintro rfl
  exact absurd h (by decide)

/-- C9 (amended): only the `CanvasStage` `hexToRgb` accepts 3-digit forms,
expanding them by digit duplication (with or without a leading `#`); the
`LeftSidebar` `hexToRgb` returns its `null` sentinel on every 3-character
string of hex digits. -/
theorem hexToRgb_three_digit_forms (a b c : Char)
    (ha : isHexDig a = true) (hb : isHexDig b = true) (hc : isHexDig c = true) :
    canvasHexToRgb ⟨[a, b, c]⟩ = canvasHexToRgb ⟨[a, a, b, b, c, c]⟩ ∧
    canvasHexToRgb ⟨['#', a, b, c]⟩ = canvasHexToRgb ⟨[a, b, c]⟩ ∧
    sidebarHexToRgb ⟨[a, b, c]⟩ = none := by
  have ha' := ne_hash_of_hexDig ha
  have hb' := ne_hash_of_hexDig hb
  have hc' := ne_hash_of_hexDig hc
  have hrf : removeFirstHash [a, b, c] = [a, b, c] := by
    simp [removeFirstHash, ha', hb', hc']
  have hrf6 : removeFirstHash [a, a, b, b, c, c] = [a, a, b, b, c, c] := by
    simp [removeFirstHash, ha', hb', hc']
  refine ⟨?_, ?_, ?_⟩
  · simp [canvasHexToRgb, hrf, hrf6, expand3]
  · have hrfh : removeFirstHash ('#' :: [a, b, c]) = [a, b, c] := by
      simp [removeFirstHash]
    simp [canvasHexToRgb, hrfh, hrf]
  · simp [sidebarHexToRgb, ha']

/-- Witness for C9 at `"abc"`. -/
theorem hexToRgb_three_digit_forms_witness :
    (isHexDig 'a' = true ∧ isHexDig 'b' = true ∧ isHexDig 'c' = true) ∧
    canvasHexToRgb ⟨['a', 'b', 'c']⟩ = canvasHexToRgb ⟨['a', 'a', 'b', 'b', 'c', 'c']⟩ ∧
    canvasHexToRgb ⟨['#', 'a', 'b', 'c']⟩ = canvasHexToRgb ⟨['a', 'b', 'c']⟩ ∧
    sidebarHexToRgb ⟨['a', 'b', 'c']⟩ = none :=
  ⟨⟨by decide, by decide, by decide⟩,
    hexToRgb_three_digit_forms 'a' 'b' 'c' (by decide) (by decide) (by decide)⟩

/-- Counterexample to C9 as stated: the `hexToRgb` that has a sentinel
(`LeftSidebar`) rejects the valid 3-digit form `"abc"`, while the `hexToRgb`
that accepts 3-digit forms (`CanvasStage`) maps the malformed `"zzz"` to the
well-formed black `{r: 0, g: 0, b: 0}` — the same value it returns for the
genuine color `"000000"` — rather than to a sentinel. -/
theorem hexToRgb_three_digit_forms_cex :
    sidebarHexToRgb "abc" = none ∧
    canvasHexToRgb "zzz" = ⟨0, 0, 0⟩ ∧
    canvasHexToRgb "000000" = ⟨0, 0, 0⟩ := by
  refine ⟨by decide, by decide, by decide⟩

/-! ### CMYK round trip (C8)

For integer channels the components of `rgbToCmyk` and `cmykToRgb` reduce to
pure natural-number arithmetic: with `m = max r (max g b)` the `c` component
is `⌊100·(m-r)/m + 1/2⌋ = (200·(m-r) + m) / (2m)` and so on.  The `±2` bound
is then checked exhaustively over the pairs `(x, m)` with `x ≤ m < 256`. -/

/-- The `c` component of `rgbToCmyk` on integer inputs, in pure `ℕ` arithmetic. -/
def cOfNat (x m : ℕ) : ℕ := (200 * (m - x) + m) / (2 * m)

/-- The `k` component of `rgbToCmyk` on integer inputs, in pure `ℕ` arithmetic. -/
def kOfNat (m : ℕ) : ℕ := (200 * (255 - m) + 255) / 510

/-- A channel of `cmykToRgb` on integer inputs, in pure `ℕ` arithmetic. -/
def backOfNat (c k : ℕ) : ℕ := (510 * (100 - c) * (100 - k) + 10000) / 20000

/-- One channel of the CMYK round trip stays within `±2`. -/
def chanOKb (x m : ℕ) : Bool :=
  (x ≤ backOfNat (cOfNat x m) (kOfNat m) + 2) && (backOfNat (cOfNat x m) (kOfNat m) ≤ x + 2)

set_option maxRecDepth 1000000 in
set_option maxHeartbeats 4000000 in
theorem chanOK_all :
    ((List.range 256).all fun m => (m == 0) ||
      (List.range (m+1)).all fun x => chanOKb x m) = true := by
  decide

theorem chanOK_spec (x m : ℕ) (hm1 : 1 ≤ m) (hm : m < 256) (hx : x ≤ m) :
    x ≤ backOfNat (cOfNat x m) (kOfNat m) + 2 ∧
      backOfNat (cOfNat x m) (kOfNat m) ≤ x + 2 := by
  have h := chanOK_all
  rw [List.all_eq_true] at h
  have h2 := h m (List.mem_range.2 hm)
  rw [Bool.or_eq_true] at h2
  rcases h2 with h2 | h2
  · simp only [beq_iff_eq] at h2
    omega
  · rw [List.all_eq_true] at h2
    have h3 := h2 x (List.mem_range.2 (by omega))
    rw [chanOKb, Bool.and_eq_true, decide_eq_true_iff, decide_eq_true_iff] at h3
    exact h3

theorem floor_nat_div (a b : ℕ) : ⌊((a : ℚ) / (b : ℚ))⌋ = ((a / b : ℕ) : ℤ) := by
  rw [show ((a : ℚ)) = (((a : ℤ)) : ℚ) by push_cast; ring, Rat.floor_intCast_div_natCast]
  exact (Int.ofNat_tdiv a b).symm

theorem jsRound_nat_div (p q : ℕ) (hq : (q : ℚ) ≠ 0) :
    jsRound ((p : ℚ) / q) = (((2 * p + q) / (2 * q) : ℕ) : ℤ) := by
  rw [jsRound_eq, show (p : ℚ) / q + 1/2 = ((2 * p + q : ℕ) : ℚ) / ((2 * q : ℕ) : ℚ) by
    push_cast; field_simp; ring]
  exact floor_nat_div _ _

theorem cOfNat_le (x m : ℕ) (h1 : 1 ≤ m) : cOfNat x m ≤ 100 := by
  rw [cOfNat, ← Nat.lt_succ_iff, Nat.div_lt_iff_lt_mul (by omega : 0 < 2*m)]
  have := Nat.sub_le m x
  omega

theorem kOfNat_le (m : ℕ) : kOfNat m ≤ 100 := by
  rw [kOfNat, ← Nat.lt_succ_iff, Nat.div_lt_iff_lt_mul (by norm_num)]
  have := Nat.sub_le 255 m
  omega

theorem cyComponent (x m : ℕ) (hx : x ≤ m) (hm1 : 1 ≤ m) :
    jsRound (clamp ((1 - (x:ℚ)/255 - (1 - (m:ℚ)/255)) / (1 - (1 - (m:ℚ)/255))) * 100)
      = ((cOfNat x m : ℕ) : ℤ) := by
  have hm0 : (m : ℚ) ≠ 0 := Nat.cast_ne_zero.2 (by omega)
  have hmpos : (0 : ℚ) < m := by
    have : (0 : ℚ) ≤ m := Nat.cast_nonneg m
    rcases this.lt_or_eq with h | h
    · exact h
    · exact absurd h.symm hm0
  have hxm : (x : ℚ) ≤ (m : ℚ) := Nat.cast_le.2 hx
  have hfrac : (1 - (x:ℚ)/255 - (1 - (m:ℚ)/255)) / (1 - (1 - (m:ℚ)/255))
      = ((m:ℚ) - x) / m := by
    rw [show (1 - (x:ℚ)/255 - (1 - (m:ℚ)/255)) = ((m:ℚ) - x)/255 by ring,
      show (1 - (1 - (m:ℚ)/255)) = (m:ℚ)/255 by ring]
    field_simp
  have hcl : clamp (((m:ℚ) - x)/m) = ((m:ℚ) - x)/m := by
    rw [clamp, max_eq_right (div_nonneg (by linarith) (by linarith)),
      min_eq_right ((div_le_one hmpos).2 (by linarith))]
  rw [hfrac, hcl, show ((m:ℚ) - x)/m * 100 = ((100 * (m - x) : ℕ) : ℚ) / ((m : ℕ) : ℚ) by
    push_cast [Nat.cast_sub hx]; ring, jsRound_nat_div _ _ hm0]
  rw [show 2 * (100 * (m - x)) + m = 200 * (m - x) + m by ring, cOfNat]

theorem kComponent (m : ℕ) (hm255 : m ≤ 255) :
    jsRound (clamp (1 - (m:ℚ)/255) * 100) = ((kOfNat m : ℕ) : ℤ) := by
  have hm : (m : ℚ) ≤ 255 := by exact_mod_cast hm255
  have hmn : (0 : ℚ) ≤ m := Nat.cast_nonneg m
  have hcl : clamp (1 - (m:ℚ)/255) = 1 - (m:ℚ)/255 := by
    rw [clamp, max_eq_right (by linarith [div_le_one (by norm_num : (0:ℚ) < 255) |>.2 hm]),
      min_eq_right (by linarith [div_nonneg hmn (by norm_num : (0:ℚ) ≤ 255)])]
  rw [hcl, show (1 - (m:ℚ)/255) * 100 = ((100 * (255 - m) : ℕ) : ℚ) / ((255 : ℕ) : ℚ) by
    push_cast [Nat.cast_sub hm255]; ring, jsRound_nat_div _ _ (by norm_num)]
  rw [show 2 * (100 * (255 - m)) + 255 = 200 * (255 - m) + 255 by ring,
    show 2 * 255 = 510 by norm_num, kOfNat]

theorem backComponent (c k : ℕ) (hc : c ≤ 100) (hk : k ≤ 100) :
    jsRound (255 * (1 - (c:ℚ)/100) * (1 - (k:ℚ)/100)) = ((backOfNat c k : ℕ) : ℤ) := by
  rw [show 255 * (1 - (c:ℚ)/100) * (1 - (k:ℚ)/100)
      = ((255 * (100 - c) * (100 - k) : ℕ) : ℚ) / ((10000 : ℕ) : ℚ) by
    push_cast [Nat.cast_sub hc, Nat.cast_sub hk]; ring,
    jsRound_nat_div _ _ (by norm_num)]
  rw [show 2 * (255 * (100 - c) * (100 - k)) = 510 * (100 - c) * (100 - k) by ring,
    show 2 * 10000 = 20000 by norm_num, backOfNat]

theorem rgbToCmyk_eq_nat (r g b : ℕ) (hr : r ≤ 255) (hg : g ≤ 255) (hb : b ≤ 255)
    (hm1 : 1 ≤ max r (max g b)) :
    rgbToCmyk r g b =
      ⟨cOfNat r (max r (max g b)), cOfNat g (max r (max g b)),
        cOfNat b (max r (max g b)), kOfNat (max r (max g b))⟩ := by
  set m := max r (max g b) with hm_def
  have hm0 : (m : ℚ) ≠ 0 := Nat.cast_ne_zero.2 (by omega)
  have hmax : max ((r:ℚ)/255) (max ((g:ℚ)/255) ((b:ℚ)/255)) = (m : ℚ)/255 := by
    have hcast : ((m : ℕ) : ℚ) = max (r:ℚ) (max (g:ℚ) (b:ℚ)) := by
      rw [hm_def]; push_cast [Nat.cast_max]; ring
    rw [max_div_div_right (by norm_num : (0:ℚ) ≤ 255),
      max_div_div_right (by norm_num : (0:ℚ) ≤ 255), ← hcast]
  have hKne : 1 - (m:ℚ)/255 ≠ 1 := by
    have : (m:ℚ)/255 ≠ 0 := div_ne_zero hm0 (by norm_num)
    intro h
    exact this (by linarith)
  have hm255 : m ≤ 255 := max_le hr (max_le hg hb)
  simp only [rgbToCmyk, hmax, if_neg hKne, CMYK.mk.injEq]
  exact ⟨cyComponent r m (le_max_left _ _) hm1,
    cyComponent g m (le_trans (le_max_left _ _) (le_max_right _ _)) hm1,
    cyComponent b m (le_trans (le_max_right _ _) (le_max_right _ _)) hm1,
    kComponent m hm255⟩

theorem cmykToRgb_eq_nat (c m y k : ℕ) (hc : c ≤ 100) (hm : m ≤ 100) (hy : y ≤ 100)
    (hk : k ≤ 100) :
    cmykToRgb c m y k = ⟨backOfNat c k, backOfNat m k, backOfNat y k⟩ := by
  simp only [cmykToRgb, RGB.mk.injEq]
  exact ⟨backComponent c k hc hk, backComponent m k hm hk, backComponent y k hy hk⟩

/-- C8 (amended): for every RGB triple with channels in `[0, 255]`, the
CMYK round trip `cmykToRgb ∘ rgbToCmyk` reproduces each channel within `±2`
(not `±1`); pure black is in fact reproduced exactly, and
`rgbToCmyk 10 5 8 = {c: 0, m: 50, y: 20, k: 96}` (so `k = 96`, but `m` is
`50`, not near zero). -/
theorem cmyk_roundtrip_within_two (r g b : ℕ) (hr : r ≤ 255) (hg : g ≤ 255) (hb : b ≤ 255) :
    (|(cmykToRgb ((rgbToCmyk r g b).c : ℚ) ((rgbToCmyk r g b).m : ℚ)
        ((rgbToCmyk r g b).y : ℚ) ((rgbToCmyk r g b).k : ℚ)).r - (r : ℤ)| ≤ 2 ∧
      |(cmykToRgb ((rgbToCmyk r g b).c : ℚ) ((rgbToCmyk r g b).m : ℚ)
        ((rgbToCmyk r g b).y : ℚ) ((rgbToCmyk r g b).k : ℚ)).g - (g : ℤ)| ≤ 2 ∧
      |(cmykToRgb ((rgbToCmyk r g b).c : ℚ) ((rgbToCmyk r g b).m : ℚ)
        ((rgbToCmyk r g b).y : ℚ) ((rgbToCmyk r g b).k : ℚ)).b - (b : ℤ)| ≤ 2) ∧
    rgbToCmyk 10 5 8 = ⟨0, 50, 20, 96⟩ ∧
    rgbToCmyk 0 0 0 = ⟨0, 0, 0, 100⟩ ∧ cmykToRgb 0 0 0 100 = ⟨0, 0, 0⟩ := by
  have e0 : rgbToCmyk 0 0 0 = ⟨0, 0, 0, 100⟩ := by
    simp only [rgbToCmyk, clamp, jsRound_eq]; norm_num
  have e0' : cmykToRgb 0 0 0 100 = ⟨0, 0, 0⟩ := by
    simp only [cmykToRgb, jsRound_eq]; norm_num
  refine ⟨?_, by simp only [rgbToCmyk, clamp, jsRound_eq]; norm_num, e0, e0'⟩
  by_cases hm0 : max r (max g b) = 0
  · obtain ⟨hr0, hgb⟩ := Nat.max_eq_zero_iff.1 hm0
    obtain ⟨hg0, hb0⟩ := Nat.max_eq_zero_iff.1 hgb
    subst hr0; subst hg0; subst hb0
    norm_num [e0, e0']
  · have hm1 : 1 ≤ max r (max g b) := Nat.pos_of_ne_zero hm0
    have hm255 : max r (max g b) ≤ 255 := max_le hr (max_le hg hb)
    rw [rgbToCmyk_eq_nat r g b hr hg hb hm1]
    set m := max r (max g b) with hm_def
    have hcast : ∀ n : ℕ, (((n : ℤ)) : ℚ) = (n : ℚ) := fun n => by push_cast; ring
    simp only [hcast]
    rw [cmykToRgb_eq_nat _ _ _ _ (cOfNat_le r m hm1) (cOfNat_le g m hm1)
      (cOfNat_le b m hm1) (kOfNat_le m)]
    have sr := chanOK_spec r m hm1 (by omega) (le_max_left _ _)
    have sg := chanOK_spec g m hm1 (by omega) (le_trans (le_max_left _ _) (le_max_right _ _))
    have sb := chanOK_spec b m hm1 (by omega) (le_trans (le_max_right _ _) (le_max_right _ _))
    refine ⟨?_, ?_, ?_⟩ <;> dsimp only <;> rw [abs_le] <;> constructor <;> omega

/-- Witness for C8 at `(10, 5, 8)`. -/
theorem cmyk_roundtrip_within_two_witness :
    ((10 : ℕ) ≤ 255 ∧ (5 : ℕ) ≤ 255 ∧ (8 : ℕ) ≤ 255) ∧
    ((|(cmykToRgb ((rgbToCmyk (10 : ℕ) (5 : ℕ) (8 : ℕ)).c : ℚ) ((rgbToCmyk (10 : ℕ) (5 : ℕ) (8 : ℕ)).m : ℚ)
        ((rgbToCmyk (10 : ℕ) (5 : ℕ) (8 : ℕ)).y : ℚ) ((rgbToCmyk (10 : ℕ) (5 : ℕ) (8 : ℕ)).k : ℚ)).r - ((10 : ℕ) : ℤ)| ≤ 2 ∧
      |(cmykToRgb ((rgbToCmyk (10 : ℕ) (5 : ℕ) (8 : ℕ)).c : ℚ) ((rgbToCmyk (10 : ℕ) (5 : ℕ) (8 : ℕ)).m : ℚ)
        ((rgbToCmyk (10 : ℕ) (5 : ℕ) (8 : ℕ)).y : ℚ) ((rgbToCmyk (10 : ℕ) (5 : ℕ) (8 : ℕ)).k : ℚ)).g - ((5 : ℕ) : ℤ)| ≤ 2 ∧
      |(cmykToRgb ((rgbToCmyk (10 : ℕ) (5 : ℕ) (8 : ℕ)).c : ℚ) ((rgbToCmyk (10 : ℕ) (5 : ℕ) (8 : ℕ)).m : ℚ)
        ((rgbToCmyk (10 : ℕ) (5 : ℕ) (8 : ℕ)).y : ℚ) ((rgbToCmyk (10 : ℕ) (5 : ℕ) (8 : ℕ)).k : ℚ)).b - ((8 : ℕ) : ℤ)| ≤ 2) ∧
    rgbToCmyk 10 5 8 = ⟨0, 50, 20, 96⟩ ∧
    rgbToCmyk 0 0 0 = ⟨0, 0, 0, 100⟩ ∧ cmykToRgb 0 0 0 100 = ⟨0, 0, 0⟩) :=
  ⟨⟨by norm_num, by norm_num, by norm_num⟩,
    cmyk_roundtrip_within_two 10 5 8 (by norm_num) (by norm_num) (by norm_num)⟩

/-- Counterexample to C8 as stated: `(0, 64, 65)` is not near pure black
(its `k` is 75), yet the round trip returns `(0, 62, 64)` whose green channel
is off by 2, beyond the claimed `±1`; and `rgbToCmyk 10 5 8` has `m = 50`,
which is not near zero. -/
theorem cmyk_roundtrip_cex :
    rgbToCmyk 0 64 65 = ⟨100, 2, 0, 75⟩ ∧
    cmykToRgb 100 2 0 75 = ⟨0, 62, 64⟩ ∧
    ¬(|(cmykToRgb ((rgbToCmyk 0 64 65).c : ℚ) ((rgbToCmyk 0 64 65).m : ℚ)
        ((rgbToCmyk 0 64 65).y : ℚ) ((rgbToCmyk 0 64 65).k : ℚ)).g - 64| ≤ 1) ∧
    (rgbToCmyk 10 5 8).m = 50 := by
  have h1 : rgbToCmyk 0 64 65 = ⟨100, 2, 0, 75⟩ := by
    simp only [rgbToCmyk, clamp, jsRound_eq]; norm_num
  have h2 : cmykToRgb 100 2 0 75 = ⟨0, 62, 64⟩ := by
    simp only [cmykToRgb, jsRound_eq]; norm_num
  have h3 : rgbToCmyk 10 5 8 = ⟨0, 50, 20, 96⟩ := by
    simp only [rgbToCmyk, clamp, jsRound_eq]; norm_num
  refine ⟨h1, h2, ?_, by rw [h3]⟩
  rw [h1]
  dsimp only
  norm_num [h2]

end WebEditor
